import Mathlib

/-!
Verification of the local storage layer and webhook dispatch of the
Stripe subscription demo.  The definitions below are a shallow embedding
of src/lib/storage.js, src/app/api/stripe/webhooks/route.js and the
customer-creation branch of src/app/api/stripe/create-subscription/route.js.
JavaScript objects keyed by strings are modelled as association lists in
insertion order; assignment to a key replaces the first entry with that
key or appends a fresh one, matching JavaScript property-update order.
Timestamps (new Date().toISOString()) are passed in as an explicit
"now" string parameter.
-/

namespace StripeDemo

/-- Property read on a JavaScript object: first entry with the key. -/
def jsGet {α : Type} (s : List (String × α)) (k : String) : Option α :=
  match s with
  | [] => none
  | (k₁, v) :: t => if k₁ = k then some v else jsGet t k

/-- Property write on a JavaScript object: replace in place, else append. -/
def jsSet {α : Type} (s : List (String × α)) (k : String) (v : α) :
    List (String × α) :=
  match s with
  | [] => [(k, v)]
  | (k₁, v₁) :: t => if k₁ = k then (k, v) :: t else (k₁, v₁) :: jsSet t k v

/-- JavaScript "a || b" on a possibly-absent string: absent and the empty
string are falsy. -/
def jsOrS (a : Option String) (b : String) : String :=
  match a with
  | some t => if t = "" then b else t
  | none => b

/-- JavaScript truthiness of a possibly-absent string field. -/
def isTruthyStr (a : Option String) : Bool :=
  match a with
  | some t => t != ""
  | none => false

/-- An entitlement record as built by the entitlement-summary webhook
handler and stored under customer.entitlements. -/
structure Entitlement where
  stripeEntitlementId : String
  featureId : String
  featureLookupKey : String
  featureName : String
  status : String
  type : String
  value : String
  metadata : List (String × String)
  updatedAt : String
deriving DecidableEq, Repr

/-- The suspensionInfo object: fields written by the invoice.payment_failed
handler plus the timestamps managed by suspendCustomerEntitlements.
Absent JavaScript keys are modelled as none. -/
structure SuspensionInfo where
  reason : Option String := none
  failedInvoiceId : Option String := none
  subscriptionId : Option String := none
  billingReason : Option String := none
  suspendedAt : Option String := none
  lastAttemptAt : Option String := none
  attemptCount : Option Nat := none
  amountDue : Option Int := none
deriving DecidableEq, Repr

/-- JavaScript object spread for suspension info: fields of b override
fields of a when present. -/
def mergeInfo (a b : SuspensionInfo) : SuspensionInfo where
  reason := b.reason <|> a.reason
  failedInvoiceId := b.failedInvoiceId <|> a.failedInvoiceId
  subscriptionId := b.subscriptionId <|> a.subscriptionId
  billingReason := b.billingReason <|> a.billingReason
  suspendedAt := b.suspendedAt <|> a.suspendedAt
  lastAttemptAt := b.lastAttemptAt <|> a.lastAttemptAt
  attemptCount := b.attemptCount <|> a.attemptCount
  amountDue := b.amountDue <|> a.amountDue

/-- A subscription payload as saved by saveCustomerSubscription; the
union of the fields the webhook call sites write, absent keys none. -/
structure SubData where
  stripeSubscriptionId : Option String := none
  status : Option String := none
  priceId : Option String := none
  productId : Option String := none
  currentPeriodStart : Option Nat := none
  currentPeriodEnd : Option Nat := none
  cancelAtPeriodEnd : Option Bool := none
  cancelAt : Option Nat := none
  canceledAt : Option Nat := none
  endedAt : Option Nat := none
  pauseCollection : Option String := none
  metadata : Option (List (String × String)) := none
deriving DecidableEq, Repr

/-- An entitlement map nested under a customer. -/
abbrev EntMap := List (String × Entitlement)

/-- A stored customer record (data/users.json entry).  The suspended flag
is a boolean in the model; a record whose JavaScript suspended key is
absent is modelled with suspended = false, which agrees with every check
the code performs (=== true and !suspended). -/
structure Customer where
  stripeCustomerId : Option String := none
  email : Option String := none
  name : Option String := none
  metadata : Option (List (String × String)) := none
  created : Nat := 0
  suspended : Bool := false
  suspensionInfo : Option SuspensionInfo := none
  entitlements : EntMap := []
  suspendedEntitlements : EntMap := []
  subscription : Option SubData := none
  updatedAt : String := ""
deriving DecidableEq, Repr

/-- The customerData argument of saveCustomer, with the fields the two
call sites pass (customer.created and the entitlement-summary handler).
Neither call site passes a suspended key. -/
structure CustomerData where
  stripeCustomerId : Option String := none
  email : Option String := none
  name : Option String := none
  metadata : Option (List (String × String)) := none
  created : Nat := 0
deriving DecidableEq, Repr

/-- The persisted store: the customers object of data/users.json. -/
abbrev Store := List (String × Customer)

/-- saveCustomer from src/lib/storage.js: overwrites the record while
preserving the nested entitlements, subscription, suspensionInfo and
suspendedEntitlements of an existing record.  The suspended key is not
among the preserved fields and is not part of customerData, so it is
reset. -/
def saveCustomer (now : String) (s : Store) (customerId : String)
    (customerData : CustomerData) : Store :=
  let existingCustomer := jsGet s customerId
  let existingEntitlements :=
    match existingCustomer with
    | some c => c.entitlements
    | none => []
  let existingSubscription :=
    match existingCustomer with
    | some c => c.subscription
    | none => none
  let existingSuspensionInfo :=
    match existingCustomer with
    | some c => c.suspensionInfo
    | none => none
  let existingSuspendedEntitlements :=
    match existingCustomer with
    | some c => c.suspendedEntitlements
    | none => []
  jsSet s customerId
    { stripeCustomerId := customerData.stripeCustomerId
      email := customerData.email
      name := customerData.name
      metadata := customerData.metadata
      created := customerData.created
      suspended := false
      entitlements := existingEntitlements
      subscription := existingSubscription
      suspensionInfo := existingSuspensionInfo
      suspendedEntitlements := existingSuspendedEntitlements
      updatedAt := now }

/-- getCustomer from src/lib/storage.js. -/
def getCustomer (s : Store) (customerId : String) : Option Customer :=
  jsGet s customerId

/-- getCustomerByEmail from src/lib/storage.js: first customer in
insertion order whose email matches. -/
def getCustomerByEmail (s : Store) (email : String) : Option Customer :=
  (s.find? (fun p => p.2.email == some email)).map Prod.snd

/-- saveCustomerSubscription from src/lib/storage.js: early return when
the customer is missing, otherwise replace the nested subscription. -/
def saveCustomerSubscription (now : String) (s : Store) (customerId : String)
    (subscriptionData : SubData) : Store :=
  match jsGet s customerId with
  | none => s
  | some c =>
      jsSet s customerId
        { c with subscription := some subscriptionData, updatedAt := now }

/-- saveCustomerEntitlements from src/lib/storage.js: early return when
the customer is missing, otherwise replace all entitlements. -/
def saveCustomerEntitlements (now : String) (s : Store) (customerId : String)
    (entitlements : EntMap) : Store :=
  match jsGet s customerId with
  | none => s
  | some c =>
      jsSet s customerId
        { c with entitlements := entitlements, updatedAt := now }

/-- getCustomerEntitlements from src/lib/storage.js. -/
def getCustomerEntitlements (s : Store) (customerId : String) : EntMap :=
  match getCustomer s customerId with
  | some c => c.entitlements
  | none => []

/-- getActiveEntitlementsByCustomer from src/lib/storage.js:
Object.values of the entitlement map filtered to status active. -/
def getActiveEntitlementsByCustomer (s : Store) (customerId : String) :
    List Entitlement :=
  ((getCustomerEntitlements s customerId).map Prod.snd).filter
    (fun ent => ent.status == "active")

/-- customerHasFeature from src/lib/storage.js. -/
def customerHasFeature (s : Store) (customerId : String)
    (featureLookupKey : String) : Bool :=
  (getActiveEntitlementsByCustomer s customerId).any
    (fun ent => ent.featureLookupKey == featureLookupKey)

/-- suspendCustomerEntitlements from src/lib/storage.js.  Returns the new
store plus the boolean result.  An unknown customer returns false; an
already-suspended customer only has its suspension info merged; otherwise
the customer is flagged and a non-empty entitlement map moves wholesale
to suspendedEntitlements. -/
def suspendCustomerEntitlements (now : String) (s : Store)
    (customerId : String) (suspensionInfo : SuspensionInfo) : Store × Bool :=
  match jsGet s customerId with
  | none => (s, false)
  | some customer =>
      if customer.suspended then
        let si :=
          { mergeInfo ((customer.suspensionInfo).getD {}) suspensionInfo with
            suspendedAt :=
              some (jsOrS ((customer.suspensionInfo).bind (·.suspendedAt)) now)
            lastAttemptAt := some now }
        (jsSet s customerId { customer with suspensionInfo := some si }, true)
      else
        let c₁ :=
          { customer with
            suspended := true
            suspensionInfo := some { suspensionInfo with suspendedAt := some now } }
        let c₂ :=
          if c₁.entitlements.isEmpty then c₁
          else
            { c₁ with
              suspendedEntitlements := c₁.entitlements
              entitlements := [] }
        (jsSet s customerId { c₂ with updatedAt := now }, true)

/-- restoreCustomerEntitlements from src/lib/storage.js.  Unknown customer
returns false without writing; a non-suspended customer returns true
without writing; otherwise a non-empty suspendedEntitlements map moves
back, the flag clears and suspensionInfo becomes null. -/
def restoreCustomerEntitlements (now : String) (s : Store)
    (customerId : String) : Store × Bool :=
  match jsGet s customerId with
  | none => (s, false)
  | some customer =>
      if !customer.suspended then (s, true)
      else
        let c₁ :=
          if customer.suspendedEntitlements.isEmpty then customer
          else
            { customer with
              entitlements := customer.suspendedEntitlements
              suspendedEntitlements := [] }
        (jsSet s customerId
          { c₁ with
            suspended := false
            suspensionInfo := none
            updatedAt := now }, true)

/-- clearLocalData from src/scripts/wipe.mjs: rewrites the data file with
an empty customers object. -/
def clearLocalData : Store := []

/-! ## Webhook layer: src/app/api/stripe/webhooks/route.js -/

/-- A Stripe customer object as read from an event payload or retrieved
through the provider SDK. -/
structure CustomerObj where
  id : String
  email : Option String := none
  name : Option String := none
  metadata : List (String × String) := []
  created : Nat := 0
deriving DecidableEq, Repr

/-- A Stripe invoice object, with the fields the handlers read.
parentSubscription is parent.subscription_details.subscription. -/
structure Invoice where
  id : String
  customer : Option String := none
  subscription : Option String := none
  parentSubscription : Option String := none
  billingReason : Option String := none
  amountDue : Int := 0
  attemptCount : Nat := 0
deriving DecidableEq, Repr

/-- A Stripe subscription object, with the fields the handlers read.
priceId and productId stand for items.data[0].price.id and .product. -/
structure StripeSub where
  id : String
  customer : String
  status : String
  priceId : Option String := none
  productId : Option String := none
  currentPeriodStart : Option Nat := none
  currentPeriodEnd : Option Nat := none
  cancelAtPeriodEnd : Option Bool := none
  cancelAt : Option Nat := none
  canceledAt : Option Nat := none
  endedAt : Option Nat := none
  pauseCollection : Option String := none
  metadata : List (String × String) := []
deriving DecidableEq, Repr

/-- One entry of entitlementSummary.entitlements.data. -/
structure EntItem where
  id : String
  feature : String
  lookupKey : String := ""
  type : String := ""
  value : String := ""
deriving DecidableEq, Repr

/-- The entitlements.active_entitlement_summary.updated payload. -/
structure EntSummary where
  customer : String
  entitlements : List EntItem := []
deriving DecidableEq, Repr

/-- A Stripe feature object retrieved for an entitlement. -/
structure Feature where
  name : Option String := none
  lookupKey : String := ""
  metadata : List (String × String) := []
deriving DecidableEq, Repr

/-- The external billing provider, modelled as a deterministic oracle for
the retrievals the handlers perform.  retrieveFeature returning none
models the caught retrieval failure in the entitlement-summary handler. -/
structure Env where
  retrieveSub : String → StripeSub
  retrieveCustomer : String → CustomerObj
  retrieveFeature : String → Option Feature
  listIncomplete : String → List StripeSub

/-- A mutation the handler issues against the provider (payload elided):
cancelling an incomplete subscription or updating customer metadata
during invoice.payment_succeeded. -/
inductive ProviderWrite where
  | cancelSubscription (subscriptionId : String)
  | updateCustomerMetadata (customerId : String)
deriving DecidableEq, Repr

/-- The webhook event types the switch statement dispatches on, with the
payload fields each case reads.  subUpdated carries
event.data.previous_attributes.status. -/
inductive StripeEvent where
  | customerCreated (c : CustomerObj)
  | customerUpdated (c : CustomerObj)
  | paymentIntentSucceeded (id : String)
  | paymentIntentFailed (id : String)
  | invoicePaymentSucceeded (inv : Invoice)
  | invoicePaymentFailed (inv : Invoice)
  | invoiceUpcoming (inv : Invoice)
  | invoiceCreated (inv : Invoice)
  | subCreated (sub : StripeSub)
  | subUpdated (sub : StripeSub) (prevStatus : Option String)
  | subDeleted (sub : StripeSub)
  | subPaused (sub : StripeSub)
  | subResumed (sub : StripeSub)
  | entitlementSummaryUpdated (summary : EntSummary)
  | other (type : String)
deriving DecidableEq, Repr

/-- The subscription payload saved on invoice.payment_succeeded. -/
def subDataOnPaymentSucceeded (sub : StripeSub) : SubData where
  stripeSubscriptionId := some sub.id
  status := some sub.status
  priceId := sub.priceId
  productId := sub.productId
  currentPeriodStart := sub.currentPeriodStart
  currentPeriodEnd := sub.currentPeriodEnd
  cancelAtPeriodEnd := sub.cancelAtPeriodEnd
  metadata := some sub.metadata

/-- The subscription payload saved when customer.subscription.updated
reports recovery from past_due. -/
def subDataOnRecovery (sub : StripeSub) : SubData where
  stripeSubscriptionId := some sub.id
  status := some sub.status
  priceId := sub.priceId
  productId := sub.productId
  currentPeriodStart := sub.currentPeriodStart
  currentPeriodEnd := sub.currentPeriodEnd
  cancelAtPeriodEnd := sub.cancelAtPeriodEnd
  cancelAt := sub.cancelAt
  canceledAt := sub.canceledAt
  pauseCollection := sub.pauseCollection
  metadata := some sub.metadata

/-- The suspensionInfo object the invoice.payment_failed handler passes
to suspendCustomerEntitlements. -/
def failedPaymentInfo (now : String) (inv : Invoice) : SuspensionInfo where
  reason := some "payment_failed"
  failedInvoiceId := some inv.id
  subscriptionId := inv.subscription
  billingReason := inv.billingReason
  suspendedAt := some now
  attemptCount := some inv.attemptCount
  amountDue := some inv.amountDue

/-- One entitlement record built by handleEntitlementSummaryUpdated, with
the feature retrieval fallback of the source. -/
def entFromItem (now : String) (env : Env) (it : EntItem) : Entitlement :=
  let featureName :=
    match env.retrieveFeature it.feature with
    | some f => jsOrS f.name f.lookupKey
    | none => jsOrS (some it.lookupKey) "Unknown Feature"
  let featureMetadata :=
    match env.retrieveFeature it.feature with
    | some f => f.metadata
    | none => []
  { stripeEntitlementId := it.id
    featureId := it.feature
    featureLookupKey := it.lookupKey
    featureName := featureName
    status := "active"
    type := it.type
    value := it.value
    metadata := featureMetadata
    updatedAt := now }

/-- The customerEntitlements object handleEntitlementSummaryUpdated
accumulates over the summary entries. -/
def buildEntMap (now : String) (env : Env) (items : List EntItem) : EntMap :=
  items.foldl (fun m it => jsSet m it.id (entFromItem now env it)) []

/-- handleEntitlementSummaryUpdated from the webhook route: retrieve the
customer, save it, then overwrite its entitlements with the rebuilt map. -/
def handleEntitlementSummaryUpdated (now : String) (env : Env)
    (summary : EntSummary) (s : Store) : Store :=
  let cust := env.retrieveCustomer summary.customer
  let s₁ := saveCustomer now s cust.id
    { stripeCustomerId := some cust.id
      email := cust.email
      name := cust.name
      metadata := some cust.metadata
      created := cust.created }
  saveCustomerEntitlements now s₁ cust.id (buildEntMap now env summary.entitlements)

/-- The switch statement of the webhook POST handler: the effect of one
event on the local store plus the provider mutations it issues.  Cases
that only log are identities. -/
def processEvent (now : String) (env : Env) (e : StripeEvent) (s : Store) :
    Store × List ProviderWrite :=
  match e with
  | .customerCreated c | .customerUpdated c =>
      (saveCustomer now s c.id
        { stripeCustomerId := some c.id
          email := c.email
          name := c.name
          created := c.created }, [])
  | .paymentIntentSucceeded _ => (s, [])
  | .paymentIntentFailed _ => (s, [])
  | .invoicePaymentSucceeded inv =>
      match inv.parentSubscription, inv.customer with
      | some sid, some cu =>
          if sid != "" && cu != "" then
            let sub := env.retrieveSub sid
            let s₁ :=
              if sub.status == "active" then
                saveCustomerSubscription now s cu (subDataOnPaymentSucceeded sub)
              else s
            let cancels :=
              ((env.listIncomplete cu).filter (fun q => q.id != sid)).map
                (fun q => ProviderWrite.cancelSubscription q.id)
            (s₁, cancels ++ [ProviderWrite.updateCustomerMetadata cu])
          else (s, [])
      | _, _ => (s, [])
  | .invoicePaymentFailed inv =>
      let isSubscriptionInvoice :=
        isTruthyStr inv.subscription
          || inv.billingReason == some "subscription_create"
          || inv.billingReason == some "subscription_cycle"
          || inv.billingReason == some "subscription_update"
      let isInitialPaymentAttempt :=
        inv.billingReason == some "subscription_create"
          && inv.attemptCount == 0
      match inv.customer with
      | some cu =>
          if isSubscriptionInvoice && cu != "" && !isInitialPaymentAttempt then
            ((suspendCustomerEntitlements now s cu (failedPaymentInfo now inv)).1, [])
          else (s, [])
      | none => (s, [])
  | .invoiceUpcoming _ => (s, [])
  | .invoiceCreated _ => (s, [])
  | .subCreated _ => (s, [])
  | .subUpdated sub prevStatus =>
      if sub.status == "active" && prevStatus == some "past_due" then
        (saveCustomerSubscription now s sub.customer (subDataOnRecovery sub), [])
      else (s, [])
  | .subDeleted sub =>
      (saveCustomerSubscription now s sub.customer
        { stripeSubscriptionId := some sub.id
          status := some "canceled"
          canceledAt := sub.canceledAt
          endedAt := sub.endedAt }, [])
  | .subPaused sub =>
      (saveCustomerSubscription now s sub.customer
        { stripeSubscriptionId := some sub.id
          status := some "paused"
          pauseCollection := sub.pauseCollection }, [])
  | .subResumed sub =>
      (saveCustomerSubscription now s sub.customer
        { stripeSubscriptionId := some sub.id
          status := some sub.status
          pauseCollection := none }, [])
  | .entitlementSummaryUpdated summary =>
      (handleEntitlementSummaryUpdated now env summary s, [])
  | .other _ => (s, [])

/-- The store component of processing one event. -/
def procStore (now : String) (env : Env) (e : StripeEvent) (s : Store) : Store :=
  (processEvent now env e s).1

/-- The POST entry point of the webhook route: signature verification is
passed in as the result of stripe.webhooks.constructEvent; on failure the
handler returns 400 without dispatching, otherwise it dispatches and
returns 200. -/
def webhookPOST (now : String) (env : Env)
    (verified : Except String StripeEvent) (s : Store) : Store × Nat :=
  match verified with
  | .error _ => (s, 400)
  | .ok e => (procStore now env e s, 200)

/-! ## Checkout: src/app/api/stripe/create-subscription/route.js -/

/-- The request body of the create-subscription route. -/
structure SubRequest where
  priceId : String
  planType : String
  email : String
  productName : Option String := none
  promoCodeId : Option String := none
deriving DecidableEq, Repr

/-- The stripe.customers.create call the route issues for a new customer. -/
structure CustomerCreateCall where
  email : String
  name : String
  plan : String
  product : String
deriving DecidableEq, Repr

/-- JavaScript email.split at the at sign, first component: the prefix
of the string before the first at sign. -/
def emailLocalPart (email : String) : String :=
  ((email.toList).takeWhile (fun ch => ch ≠ '@')).asString

/-- The new-customer branch of the create-subscription route: after the
required-field check, a request whose email does not match a stored
customer with a truthy stripeCustomerId creates a provider customer with
the email, the email prefix before the at sign as name, and the plan
metadata; otherwise no provider customer is created. -/
def createSubscriptionCustomerCreate (s : Store) (req : SubRequest) :
    Option CustomerCreateCall :=
  if req.priceId == "" || req.planType == "" || req.email == "" then none
  else
    let existingCustomer := getCustomerByEmail s req.email
    let hasStripeId :=
      match existingCustomer with
      | some c => isTruthyStr c.stripeCustomerId
      | none => false
    if hasStripeId then none
    else
      some
        { email := req.email
          name := emailLocalPart req.email
          plan := req.planType
          product := jsOrS req.productName "Unknown" }

/-! ## Basic lemmas about the object model -/

theorem jsGet_jsSet_self {α : Type} (s : List (String × α)) (k : String)
    (v : α) : jsGet (jsSet s k v) k = some v := by
  induction s with
  | nil => simp [jsGet, jsSet]
  | cons p t ih =>
      by_cases h : p.1 = k
      · simp [jsGet, jsSet, h]
      · simp [jsGet, jsSet, h, ih]

theorem jsGet_jsSet_ne {α : Type} (s : List (String × α)) (k q : String)
    (v : α) (h : k ≠ q) : jsGet (jsSet s k v) q = jsGet s q := by
  induction s with
  | nil => simp [jsGet, jsSet, h]
  | cons p t ih =>
      by_cases hp : p.1 = k
      · simp [jsGet, jsSet, hp, h]
      · by_cases hq : p.1 = q
        · simp [jsGet, jsSet, hp, hq, Ne.symm h]
        · simp [jsGet, jsSet, hp, hq, ih]

theorem isSome_jsGet_jsSet {α : Type} (s : List (String × α)) (k q : String)
    (v : α) (h : (jsGet s k).isSome = true) :
    (jsGet (jsSet s q v) k).isSome = true := by
  by_cases hq : q = k
  · subst hq; simp [jsGet_jsSet_self]
  · rwa [jsGet_jsSet_ne s q k v hq]

theorem jsGet_mem {α : Type} {s : List (String × α)} {k : String} {v : α}
    (h : jsGet s k = some v) : (k, v) ∈ s := by
  induction s with
  | nil => simp [jsGet] at h
  | cons p t ih =>
      obtain ⟨a, b⟩ := p
      by_cases hp : a = k
      · subst hp
        simp only [jsGet, if_pos] at h
        cases h
        exact List.mem_cons_self _ _
      · simp only [jsGet, hp, if_false] at h
        exact List.mem_cons_of_mem _ (ih h)

theorem all_jsSet {α : Type} {f : String × α → Bool} {s : List (String × α)}
    {k : String} {v : α} (h : s.all f = true) (hv : f (k, v) = true) :
    (jsSet s k v).all f = true := by
  induction s with
  | nil => simpa [jsSet]
  | cons p t ih =>
      rw [List.all_cons, Bool.and_eq_true] at h
      by_cases hp : p.1 = k
      · simp [jsSet, hp, hv, h.2]
      · simp [jsSet, hp, h.1, ih h.2]

theorem all_of_jsGet {α : Type} {f : String × α → Bool} {s : List (String × α)}
    {k : String} {v : α} (h : s.all f = true) (hg : jsGet s k = some v) :
    f (k, v) = true :=
  List.all_eq_true.mp h _ (jsGet_mem hg)

/-! ## Reachability of store states through the storage operations -/

/-- Store states reachable from the empty store by any sequence of the
five mutating storage operations. -/
inductive ReachableStore : Store → Prop where
  | empty : ReachableStore []
  | save (now cid : String) (d : CustomerData) {s : Store} :
      ReachableStore s → ReachableStore (saveCustomer now s cid d)
  | saveSub (now cid : String) (sub : SubData) {s : Store} :
      ReachableStore s → ReachableStore (saveCustomerSubscription now s cid sub)
  | saveEnts (now cid : String) (es : EntMap) {s : Store} :
      ReachableStore s → ReachableStore (saveCustomerEntitlements now s cid es)
  | suspend (now cid : String) (info : SuspensionInfo) {s : Store} :
      ReachableStore s →
      ReachableStore (suspendCustomerEntitlements now s cid info).1
  | restore (now cid : String) {s : Store} :
      ReachableStore s → ReachableStore (restoreCustomerEntitlements now s cid).1

/-- Side condition under which a saveCustomerEntitlements call cannot
populate the entitlements of a customer that still has parked
suspendedEntitlements: either the written map is empty or the target has
an empty suspendedEntitlements map. -/
def saveEntsDisjOk (s : Store) (cid : String) (es : EntMap) : Bool :=
  es.isEmpty ||
    (match jsGet s cid with
     | some c => c.suspendedEntitlements.isEmpty
     | none => true)

/-- Side condition under which a saveCustomerEntitlements call cannot
hand entitlements to a suspended customer: either the written map is
empty or the target is not currently suspended. -/
def saveEntsSuspOk (s : Store) (cid : String) (es : EntMap) : Bool :=
  es.isEmpty ||
    (match jsGet s cid with
     | some c => !c.suspended
     | none => true)

/-- Reachability restricted so that saveCustomerEntitlements only writes a
non-empty map to a customer whose suspendedEntitlements map is empty. -/
inductive ReachableDisj : Store → Prop where
  | empty : ReachableDisj []
  | save (now cid : String) (d : CustomerData) {s : Store} :
      ReachableDisj s → ReachableDisj (saveCustomer now s cid d)
  | saveSub (now cid : String) (sub : SubData) {s : Store} :
      ReachableDisj s → ReachableDisj (saveCustomerSubscription now s cid sub)
  | saveEnts (now cid : String) (es : EntMap) {s : Store} :
      ReachableDisj s → saveEntsDisjOk s cid es = true →
      ReachableDisj (saveCustomerEntitlements now s cid es)
  | suspend (now cid : String) (info : SuspensionInfo) {s : Store} :
      ReachableDisj s →
      ReachableDisj (suspendCustomerEntitlements now s cid info).1
  | restore (now cid : String) {s : Store} :
      ReachableDisj s → ReachableDisj (restoreCustomerEntitlements now s cid).1

/-- Reachability restricted so that saveCustomerEntitlements only writes a
non-empty map to a customer that is not currently suspended. -/
inductive ReachableSusp : Store → Prop where
  | empty : ReachableSusp []
  | save (now cid : String) (d : CustomerData) {s : Store} :
      ReachableSusp s → ReachableSusp (saveCustomer now s cid d)
  | saveSub (now cid : String) (sub : SubData) {s : Store} :
      ReachableSusp s → ReachableSusp (saveCustomerSubscription now s cid sub)
  | saveEnts (now cid : String) (es : EntMap) {s : Store} :
      ReachableSusp s → saveEntsSuspOk s cid es = true →
      ReachableSusp (saveCustomerEntitlements now s cid es)
  | suspend (now cid : String) (info : SuspensionInfo) {s : Store} :
      ReachableSusp s →
      ReachableSusp (suspendCustomerEntitlements now s cid info).1
  | restore (now cid : String) {s : Store} :
      ReachableSusp s → ReachableSusp (restoreCustomerEntitlements now s cid).1

/-- The intended disjointness invariant: no stored customer has both
entitlement maps non-empty. -/
def entDisjointB (s : Store) : Bool :=
  s.all fun p => p.2.entitlements.isEmpty || p.2.suspendedEntitlements.isEmpty

/-- A suspended customer holds no entitlements. -/
def suspendedLockedB (s : Store) : Bool :=
  s.all fun p => !p.2.suspended || p.2.entitlements.isEmpty

theorem entDisjointB_saveCustomer (now cid : String) (d : CustomerData)
    {s : Store} (h : entDisjointB s = true) :
    entDisjointB (saveCustomer now s cid d) = true := by
  unfold entDisjointB at *
  cases hg : jsGet s cid with
  | none =>
      simp only [saveCustomer, hg]
      exact all_jsSet h (by simp)
  | some c =>
      simp only [saveCustomer, hg]
      exact all_jsSet h (by simpa using all_of_jsGet h hg)

theorem entDisjointB_saveSub (now cid : String) (sub : SubData)
    {s : Store} (h : entDisjointB s = true) :
    entDisjointB (saveCustomerSubscription now s cid sub) = true := by
  unfold entDisjointB at *
  cases hg : jsGet s cid with
  | none => simpa [saveCustomerSubscription, hg] using h
  | some c =>
      simp only [saveCustomerSubscription, hg]
      exact all_jsSet h (by simpa using all_of_jsGet h hg)

theorem entDisjointB_saveEnts (now cid : String) (es : EntMap)
    {s : Store} (h : entDisjointB s = true)
    (hok : saveEntsDisjOk s cid es = true) :
    entDisjointB (saveCustomerEntitlements now s cid es) = true := by
  unfold entDisjointB at *
  cases hg : jsGet s cid with
  | none => simpa [saveCustomerEntitlements, hg] using h
  | some c =>
      simp only [saveCustomerEntitlements, hg]
      refine all_jsSet h ?_
      simp only [saveEntsDisjOk, hg] at hok
      simpa using hok

theorem entDisjointB_suspend (now cid : String) (info : SuspensionInfo)
    {s : Store} (h : entDisjointB s = true) :
    entDisjointB (suspendCustomerEntitlements now s cid info).1 = true := by
  unfold entDisjointB at *
  cases hg : jsGet s cid with
  | none => simpa [suspendCustomerEntitlements, hg] using h
  | some c =>
      by_cases hs : c.suspended
      · simp only [suspendCustomerEntitlements, hg, hs, if_true]
        exact all_jsSet h (by simpa using all_of_jsGet h hg)
      · by_cases hemp : c.entitlements.isEmpty
        · simp only [suspendCustomerEntitlements, hg, hs, if_false, hemp, if_true]
          exact all_jsSet h (by simpa using Or.inl hemp)
        · simp only [suspendCustomerEntitlements, hg, hs, if_false, hemp]
          exact all_jsSet h (by simp)

theorem entDisjointB_restore (now cid : String)
    {s : Store} (h : entDisjointB s = true) :
    entDisjointB (restoreCustomerEntitlements now s cid).1 = true := by
  unfold entDisjointB at *
  cases hg : jsGet s cid with
  | none => simpa [restoreCustomerEntitlements, hg] using h
  | some c =>
      by_cases hs : c.suspended
      · by_cases hemp : c.suspendedEntitlements.isEmpty
        · simp only [restoreCustomerEntitlements, hg, hs, Bool.not_true,
            Bool.false_eq_true, if_false, hemp, if_true]
          exact all_jsSet h (by simpa using Or.inr hemp)
        · simp only [restoreCustomerEntitlements, hg, hs, Bool.not_true,
            Bool.false_eq_true, if_false, hemp]
          exact all_jsSet h (by simp)
      · simp only [restoreCustomerEntitlements, hg, hs]
        simpa using h

theorem suspendedLockedB_saveCustomer (now cid : String) (d : CustomerData)
    {s : Store} (h : suspendedLockedB s = true) :
    suspendedLockedB (saveCustomer now s cid d) = true := by
  unfold suspendedLockedB at *
  cases hg : jsGet s cid with
  | none =>
      simp only [saveCustomer, hg]
      exact all_jsSet h (by simp)
  | some c =>
      simp only [saveCustomer, hg]
      exact all_jsSet h (by simp)

theorem suspendedLockedB_saveSub (now cid : String) (sub : SubData)
    {s : Store} (h : suspendedLockedB s = true) :
    suspendedLockedB (saveCustomerSubscription now s cid sub) = true := by
  unfold suspendedLockedB at *
  cases hg : jsGet s cid with
  | none => simpa [saveCustomerSubscription, hg] using h
  | some c =>
      simp only [saveCustomerSubscription, hg]
      exact all_jsSet h (by simpa using all_of_jsGet h hg)

theorem suspendedLockedB_saveEnts (now cid : String) (es : EntMap)
    {s : Store} (h : suspendedLockedB s = true)
    (hok : saveEntsSuspOk s cid es = true) :
    suspendedLockedB (saveCustomerEntitlements now s cid es) = true := by
  unfold suspendedLockedB at *
  cases hg : jsGet s cid with
  | none => simpa [saveCustomerEntitlements, hg] using h
  | some c =>
      simp only [saveCustomerEntitlements, hg]
      refine all_jsSet h ?_
      simp only [saveEntsSuspOk, hg] at hok
      rcases Bool.or_eq_true_iff.mp hok with h₁ | h₂
      · simp [h₁]
      · simp [h₂]

theorem suspendedLockedB_suspend (now cid : String) (info : SuspensionInfo)
    {s : Store} (h : suspendedLockedB s = true) :
    suspendedLockedB (suspendCustomerEntitlements now s cid info).1 = true := by
  unfold suspendedLockedB at *
  cases hg : jsGet s cid with
  | none => simpa [suspendCustomerEntitlements, hg] using h
  | some c =>
      by_cases hs : c.suspended
      · simp only [suspendCustomerEntitlements, hg, hs, if_true]
        exact all_jsSet h (by simpa [hs] using all_of_jsGet h hg)
      · by_cases hemp : c.entitlements.isEmpty
        · simp only [suspendCustomerEntitlements, hg, hs, if_false, hemp, if_true]
          exact all_jsSet h (by simpa using hemp)
        · simp only [suspendCustomerEntitlements, hg, hs, if_false, hemp]
          exact all_jsSet h (by simp)

theorem suspendedLockedB_restore (now cid : String)
    {s : Store} (h : suspendedLockedB s = true) :
    suspendedLockedB (restoreCustomerEntitlements now s cid).1 = true := by
  unfold suspendedLockedB at *
  cases hg : jsGet s cid with
  | none => simpa [restoreCustomerEntitlements, hg] using h
  | some c =>
      by_cases hs : c.suspended
      · by_cases hemp : c.suspendedEntitlements.isEmpty
        · simp only [restoreCustomerEntitlements, hg, hs, Bool.not_true,
            Bool.false_eq_true, if_false, hemp, if_true]
          exact all_jsSet h (by simp)
        · simp only [restoreCustomerEntitlements, hg, hs, Bool.not_true,
            Bool.false_eq_true, if_false, hemp]
          exact all_jsSet h (by simp)
      · simp only [restoreCustomerEntitlements, hg, hs]
        simpa using h

theorem entDisjointB_of_reachableDisj {s : Store} (h : ReachableDisj s) :
    entDisjointB s = true := by
  induction h with
  | empty => rfl
  | save now cid d _ ih => exact entDisjointB_saveCustomer now cid d ih
  | saveSub now cid sub _ ih => exact entDisjointB_saveSub now cid sub ih
  | saveEnts now cid es _ hok ih => exact entDisjointB_saveEnts now cid es ih hok
  | suspend now cid info _ ih => exact entDisjointB_suspend now cid info ih
  | restore now cid _ ih => exact entDisjointB_restore now cid ih

theorem suspendedLockedB_of_reachableSusp {s : Store} (h : ReachableSusp s) :
    suspendedLockedB s = true := by
  induction h with
  | empty => rfl
  | save now cid d _ ih => exact suspendedLockedB_saveCustomer now cid d ih
  | saveSub now cid sub _ ih => exact suspendedLockedB_saveSub now cid sub ih
  | saveEnts now cid es _ hok ih => exact suspendedLockedB_saveEnts now cid es ih hok
  | suspend now cid info _ ih => exact suspendedLockedB_suspend now cid info ih
  | restore now cid _ ih => exact suspendedLockedB_restore now cid ih

/-! ## Claims C1 and C2 -/

/-- C1, amended.  For every sequence of storage operations applied to an
initially empty store in which saveCustomerEntitlements only ever writes
a non-empty map to a customer whose suspendedEntitlements map is empty,
no reachable customer record has both its entitlements map and its
suspendedEntitlements map non-empty at the same time.  (The unrestricted
claim is refuted by c1Counterexample: saveCustomerEntitlements performs
no suspension check.) -/
theorem reachable_stores_keep_entitlements_disjoint (s : Store)
    (hs : ReachableDisj s) :
    entDisjointB s = true ∧
    ∀ cid c, getCustomer s cid = some c →
      c.entitlements = [] ∨ c.suspendedEntitlements = [] := by
  have h := entDisjointB_of_reachableDisj hs
  refine ⟨h, ?_⟩
  intro cid c hc
  have hf := all_of_jsGet h hc
  simpa [List.isEmpty_iff] using hf

/-- A concrete provider oracle used in concrete evaluations. -/
def cexEnv : Env where
  retrieveSub := fun sid => { id := sid, customer := "cus_1", status := "active" }
  retrieveCustomer := fun cid => { id := cid }
  retrieveFeature := fun _ => none
  listIncomplete := fun _ => []

/-- An active entitlement used in concrete stores. -/
def cexEnt : Entitlement where
  stripeEntitlementId := "ent_1"
  featureId := "feat_1"
  featureLookupKey := "premium"
  featureName := "Premium"
  status := "active"
  type := "switch"
  value := "true"
  metadata := []
  updatedAt := "t0"

/-- A store reachable by the unrestricted storage operations in which a
customer is suspended and then handed entitlements again. -/
def c1CexStore : Store :=
  saveCustomerEntitlements "t4"
    ((suspendCustomerEntitlements "t3"
        (saveCustomerEntitlements "t2"
          (saveCustomer "t1" [] "cus_1" { stripeCustomerId := some "cus_1" })
          "cus_1" [("ent_1", cexEnt)])
        "cus_1" {}).1)
    "cus_1" [("ent_1", cexEnt)]

/-- C1 counterexample: the sequence saveCustomer, saveCustomerEntitlements,
suspendCustomerEntitlements, saveCustomerEntitlements starting from the
empty store reaches a customer whose entitlements and
suspendedEntitlements maps are both non-empty, refuting C1 as stated. -/
theorem c1_counterexample :
    ReachableStore c1CexStore ∧
    (getCustomer c1CexStore "cus_1").map
        (fun c => (c.entitlements.isEmpty, c.suspendedEntitlements.isEmpty))
      = some (false, false) := by
  constructor
  · exact ReachableStore.saveEnts _ _ _ (ReachableStore.suspend _ _ _
      (ReachableStore.saveEnts _ _ _
        (ReachableStore.save _ _ _ ReachableStore.empty)))
  · decide

/-- A store reachable under the amended side condition. -/
def c1WitStore : Store :=
  (suspendCustomerEntitlements "t3"
    (saveCustomerEntitlements "t2"
      (saveCustomer "t1" [] "cus_2" { stripeCustomerId := some "cus_2" })
      "cus_2" [("ent_1", cexEnt)])
    "cus_2" {}).1

/-- Witness for the amended C1 at a concrete restricted-reachable store. -/
theorem c1_witness : entDisjointB c1WitStore = true :=
  (reachable_stores_keep_entitlements_disjoint c1WitStore
    (ReachableDisj.suspend _ _ _ (ReachableDisj.saveEnts _ _ _
      (ReachableDisj.save _ _ _ ReachableDisj.empty) (by decide)))).1

/-- C2, amended.  In every store reachable by sequences in which
saveCustomerEntitlements only ever writes a non-empty map to a customer
that is not currently suspended, a stored customer whose suspended flag
is true has no feature access: customerHasFeature is false for every
lookup key and getActiveEntitlementsByCustomer is empty.  (The
unrestricted claim is refuted by c2Counterexample.) -/
theorem suspended_customer_blocks_features (s : Store) (hs : ReachableSusp s)
    (cid k : String)
    (hsus : (getCustomer s cid).map Customer.suspended = some true) :
    customerHasFeature s cid k = false ∧
    getActiveEntitlementsByCustomer s cid = [] := by
  have h := suspendedLockedB_of_reachableSusp hs
  cases hg : getCustomer s cid with
  | none => rw [hg] at hsus; cases hsus
  | some c =>
      rw [hg] at hsus
      have hs₁ : c.suspended = true := by simpa using hsus
      have hf := all_of_jsGet h hg
      have hent : c.entitlements = [] := by
        simpa [hs₁, List.isEmpty_iff] using hf
      constructor
      · simp [customerHasFeature, getActiveEntitlementsByCustomer,
          getCustomerEntitlements, hg, hent]
      · simp [getActiveEntitlementsByCustomer, getCustomerEntitlements, hg, hent]

/-- A store reachable by the unrestricted storage operations in which a
suspended customer holds an active entitlement. -/
def c2CexStore : Store :=
  saveCustomerEntitlements "t4"
    ((suspendCustomerEntitlements "t3"
        (saveCustomerEntitlements "t2"
          (saveCustomer "t1" [] "cus_3" { stripeCustomerId := some "cus_3" })
          "cus_3" [("ent_1", cexEnt)])
        "cus_3" {}).1)
    "cus_3" [("ent_1", cexEnt)]

/-- C2 counterexample: a reachable store contains a customer whose
suspended flag is true and for whom customerHasFeature returns true,
refuting C2 as stated. -/
theorem c2_counterexample :
    ReachableStore c2CexStore ∧
    (getCustomer c2CexStore "cus_3").map Customer.suspended = some true ∧
    customerHasFeature c2CexStore "cus_3" "premium" = true := by
  refine ⟨?_, by decide, by decide⟩
  exact ReachableStore.saveEnts _ _ _ (ReachableStore.suspend _ _ _
    (ReachableStore.saveEnts _ _ _
      (ReachableStore.save _ _ _ ReachableStore.empty)))

/-- A suspended customer in a store reachable under the amended side
condition. -/
def c2WitStore : Store :=
  (suspendCustomerEntitlements "t3"
    (saveCustomerEntitlements "t2"
      (saveCustomer "t1" [] "cus_4" { stripeCustomerId := some "cus_4" })
      "cus_4" [("ent_1", cexEnt)])
    "cus_4" {}).1

/-- Witness for the amended C2 at a concrete restricted-reachable store. -/
theorem c2_witness :
    customerHasFeature c2WitStore "cus_4" "premium" = false ∧
    getActiveEntitlementsByCustomer c2WitStore "cus_4" = [] :=
  suspended_customer_blocks_features c2WitStore
    (ReachableSusp.suspend _ _ _ (ReachableSusp.saveEnts _ _ _
      (ReachableSusp.save _ _ _ ReachableSusp.empty) (by decide)))
    "cus_4" "premium" (by decide)

/-! ## Claim C3: suspend followed by restore -/

/-- C3, amended.  For a stored customer whose suspended flag is not true
and which has a non-empty entitlement map or an empty
suspendedEntitlements map, suspending and then restoring returns true
both times and leaves the customer with its original entitlements, an
empty suspendedEntitlements map, suspended false and null
suspensionInfo.  (Without the extra disjunct the claim fails: see
c3Counterexample, where a stale non-empty suspendedEntitlements map
overwrites an empty entitlement map on restore.) -/
theorem suspend_restore_roundtrip (n₁ n₂ : String) (s : Store) (cid : String)
    (c : Customer) (info : SuspensionInfo)
    (hc : getCustomer s cid = some c)
    (hsus : c.suspended = false)
    (hok : c.entitlements ≠ [] ∨ c.suspendedEntitlements = []) :
    (suspendCustomerEntitlements n₁ s cid info).2 = true ∧
    (restoreCustomerEntitlements n₂
        (suspendCustomerEntitlements n₁ s cid info).1 cid).2 = true ∧
    getCustomer (restoreCustomerEntitlements n₂
        (suspendCustomerEntitlements n₁ s cid info).1 cid).1 cid
      = some { c with
               suspended := false
               suspensionInfo := none
               suspendedEntitlements := []
               updatedAt := n₂ } := by
  simp only [getCustomer] at hc
  by_cases hemp : c.entitlements.isEmpty
  · have hse : c.suspendedEntitlements = [] := by
      rcases hok with h | h
      · exact absurd (List.isEmpty_iff.mp hemp) h
      · exact h
    simp only [suspendCustomerEntitlements, hc, hsus, Bool.false_eq_true,
      if_false, hemp, if_true]
    simp only [restoreCustomerEntitlements, getCustomer, jsGet_jsSet_self,
      Bool.not_true, Bool.false_eq_true, if_false, hse, List.isEmpty_nil,
      if_true]
    trivial
  · simp only [suspendCustomerEntitlements, hc, hsus, Bool.false_eq_true,
      if_false, hemp]
    simp only [restoreCustomerEntitlements, getCustomer, jsGet_jsSet_self,
      Bool.not_true, Bool.false_eq_true, if_false, hemp]
    trivial

/-- A reachable store (saveCustomer, saveCustomerEntitlements, suspend,
saveCustomer) whose customer has suspended not true, empty entitlements
and a stale non-empty suspendedEntitlements map: saveCustomer preserves
suspendedEntitlements but drops the suspended flag. -/
def c3CexStore : Store :=
  saveCustomer "t4"
    ((suspendCustomerEntitlements "t3"
        (saveCustomerEntitlements "t2"
          (saveCustomer "t1" [] "cus_5" { stripeCustomerId := some "cus_5" })
          "cus_5" [("ent_1", cexEnt)])
        "cus_5" {}).1)
    "cus_5" { stripeCustomerId := some "cus_5" }

/-- C3 counterexample: a reachable store holds a non-suspended customer
with entitlement map E = {} whose suspend-then-restore round trip ends
with a non-empty entitlement map, not E, refuting C3 as stated. -/
theorem c3_counterexample :
    ReachableStore c3CexStore ∧
    (getCustomer c3CexStore "cus_5").map
        (fun c => (c.suspended, c.entitlements)) = some (false, []) ∧
    (getCustomer (restoreCustomerEntitlements "t6"
          (suspendCustomerEntitlements "t5" c3CexStore "cus_5" {}).1
          "cus_5").1 "cus_5").map Customer.entitlements
      ≠ some [] := by
  refine ⟨?_, by decide, by decide⟩
  exact ReachableStore.save _ _ _ (ReachableStore.suspend _ _ _
    (ReachableStore.saveEnts _ _ _
      (ReachableStore.save _ _ _ ReachableStore.empty)))

/-- A one-customer store for the C3 witness. -/
def c3WitStore : Store :=
  [("cus_6", { stripeCustomerId := some "cus_6"
               entitlements := [("ent_1", cexEnt)] })]

/-- Witness for the amended C3 at a concrete store. -/
theorem c3_witness :
    (suspendCustomerEntitlements "t7" c3WitStore "cus_6" {}).2 = true ∧
    (restoreCustomerEntitlements "t8"
        (suspendCustomerEntitlements "t7" c3WitStore "cus_6" {}).1
        "cus_6").2 = true ∧
    getCustomer (restoreCustomerEntitlements "t8"
        (suspendCustomerEntitlements "t7" c3WitStore "cus_6" {}).1
        "cus_6").1 "cus_6"
      = some { stripeCustomerId := some "cus_6"
               entitlements := [("ent_1", cexEnt)]
               suspended := false
               suspensionInfo := none
               suspendedEntitlements := []
               updatedAt := "t8" } :=
  suspend_restore_roundtrip "t7" "t8" c3WitStore "cus_6"
    { stripeCustomerId := some "cus_6", entitlements := [("ent_1", cexEnt)] }
    {} (by decide) (by decide) (Or.inl (by decide))

/-! ## Claim C10: operations on an unknown customer id -/

/-- C10.  For a customerId not present in the store,
saveCustomerSubscription and saveCustomerEntitlements leave the store
unchanged, and suspendCustomerEntitlements and
restoreCustomerEntitlements leave it unchanged and return false. -/
theorem missing_customer_ops_noop (now : String) (s : Store) (cid : String)
    (sub : SubData) (es : EntMap) (info : SuspensionInfo)
    (h : getCustomer s cid = none) :
    saveCustomerSubscription now s cid sub = s ∧
    saveCustomerEntitlements now s cid es = s ∧
    suspendCustomerEntitlements now s cid info = (s, false) ∧
    restoreCustomerEntitlements now s cid = (s, false) := by
  simp only [getCustomer] at h
  exact ⟨by simp [saveCustomerSubscription, h],
    by simp [saveCustomerEntitlements, h],
    by simp [suspendCustomerEntitlements, h],
    by simp [restoreCustomerEntitlements, h]⟩

/-- Witness for C10 on the empty store. -/
theorem missing_customer_ops_noop_witness :
    saveCustomerSubscription "t0" [] "cus_x" {} = [] ∧
    saveCustomerEntitlements "t0" [] "cus_x" [] = [] ∧
    suspendCustomerEntitlements "t0" [] "cus_x" {} = ([], false) ∧
    restoreCustomerEntitlements "t0" [] "cus_x" = ([], false) :=
  missing_customer_ops_noop "t0" [] "cus_x" {} [] {} (by decide)

/-! ## Claim C6: failed signature verification -/

/-- C6.  When signature verification fails (constructEvent throws), the
webhook POST handler returns status 400 and the store is unchanged: no
event is dispatched. -/
theorem webhook_bad_signature_returns_400 (now : String) (env : Env)
    (msg : String) (s : Store) :
    webhookPOST now env (Except.error msg) s = (s, 400) := rfl

/-! ## Claim C8: saveCustomer replaces the stored record in place -/

/-- The record saveCustomer writes for a customer id: the given
customerData plus the preserved nested fields of the prior record. -/
def savedCustomerRecord (now : String) (s : Store) (customerId : String)
    (customerData : CustomerData) : Customer where
  stripeCustomerId := customerData.stripeCustomerId
  email := customerData.email
  name := customerData.name
  metadata := customerData.metadata
  created := customerData.created
  suspended := false
  entitlements :=
    match jsGet s customerId with
    | some c => c.entitlements
    | none => []
  subscription :=
    match jsGet s customerId with
    | some c => c.subscription
    | none => none
  suspensionInfo :=
    match jsGet s customerId with
    | some c => c.suspensionInfo
    | none => none
  suspendedEntitlements :=
    match jsGet s customerId with
    | some c => c.suspendedEntitlements
    | none => []
  updatedAt := now

theorem saveCustomer_eq_jsSet (now : String) (s : Store) (cid : String)
    (d : CustomerData) :
    saveCustomer now s cid d = jsSet s cid (savedCustomerRecord now s cid d) :=
  rfl

theorem mem_jsSet_of_nodup {α : Type} {s : List (String × α)} {k : String}
    {v : α} (hnd : (s.map Prod.fst).Nodup) {p : String × α}
    (hp : p ∈ jsSet s k v) : p = (k, v) ∨ (p ∈ s ∧ p.1 ≠ k) := by
  induction s with
  | nil =>
      simp only [jsSet, List.mem_singleton] at hp
      exact Or.inl hp
  | cons q t ih =>
      rw [List.map_cons, List.nodup_cons] at hnd
      by_cases hq : q.1 = k
      · simp only [jsSet, hq, if_true] at hp
        rcases List.mem_cons.mp hp with h | h
        · exact Or.inl h
        · refine Or.inr ⟨List.mem_cons_of_mem _ h, ?_⟩
          intro hpk
          exact hnd.1 (hq ▸ hpk ▸ List.mem_map_of_mem Prod.fst h)
      · simp only [jsSet, hq, if_false] at hp
        rcases List.mem_cons.mp hp with h | h
        · exact Or.inr ⟨List.mem_cons.mpr (Or.inl h), by rw [h]; exact hq⟩
        · rcases ih hnd.2 h with h₁ | ⟨h₂, h₃⟩
          · exact Or.inl h₁
          · exact Or.inr ⟨List.mem_cons_of_mem _ h₂, h₃⟩

/-- C8.  In a store without duplicate keys, saveCustomer replaces the
record stored under the customer id: afterwards that id maps to the
freshly built record, every other id maps to what it mapped to before,
and no entry under the id holds anything but the new record, so no prior
version is retained anywhere in the store. -/
theorem saveCustomer_replaces_record (now : String) (s : Store) (cid : String)
    (d : CustomerData) (hnd : (s.map Prod.fst).Nodup) :
    (∀ k, getCustomer (saveCustomer now s cid d) k =
        if k = cid then some (savedCustomerRecord now s cid d)
        else getCustomer s k) ∧
    ∀ p ∈ saveCustomer now s cid d, p.1 = cid →
      p.2 = savedCustomerRecord now s cid d := by
  constructor
  · intro k
    by_cases hk : k = cid
    · subst hk
      simp [getCustomer, saveCustomer_eq_jsSet, jsGet_jsSet_self]
    · simp only [getCustomer, saveCustomer_eq_jsSet, hk, if_false]
      exact jsGet_jsSet_ne s cid k _ (Ne.symm hk)
  · intro p hp hpc
    rw [saveCustomer_eq_jsSet] at hp
    rcases mem_jsSet_of_nodup hnd hp with h | ⟨_, hne⟩
    · rw [h]
    · exact absurd hpc hne

/-- Witness for C8: overwriting the single record of a one-customer
store yields exactly the freshly built record under that id. -/
theorem saveCustomer_replaces_record_witness :
    getCustomer
        (saveCustomer "t9" c3WitStore "cus_6" { email := some "w@x.y" })
        "cus_6"
      = some (savedCustomerRecord "t9" c3WitStore "cus_6"
          { email := some "w@x.y" }) := by
  have h := saveCustomer_replaces_record "t9" c3WitStore "cus_6"
    { email := some "w@x.y" } (by decide)
  rw [h.1 "cus_6", if_pos rfl]

/-! ## Claim C9: creation of a local customer record -/

/-- C9.  A local record for a new customer appears through either entry
point: processing a customer.created or customer.updated event for an id
not yet stored creates the record for that id, and a create-subscription
request with valid fields whose email matches no stored customer issues
a provider customer-creation call (whose customer.created webhook then
creates the local record). -/
theorem new_customer_record_creation (now : String) (env : Env) (s : Store)
    (c : CustomerObj) (req : SubRequest)
    (h₁ : getCustomer s c.id = none)
    (h₂ : getCustomerByEmail s req.email = none)
    (h₃ : req.priceId ≠ "" ∧ req.planType ≠ "" ∧ req.email ≠ "") :
    getCustomer (procStore now env (StripeEvent.customerCreated c) s) c.id
      = some { stripeCustomerId := some c.id
               email := c.email
               name := c.name
               created := c.created
               updatedAt := now } ∧
    getCustomer (procStore now env (StripeEvent.customerUpdated c) s) c.id
      = some { stripeCustomerId := some c.id
               email := c.email
               name := c.name
               created := c.created
               updatedAt := now } ∧
    createSubscriptionCustomerCreate s req
      = some { email := req.email
               name := emailLocalPart req.email
               plan := req.planType
               product := jsOrS req.productName "Unknown" } := by
  simp only [getCustomer] at h₁
  refine ⟨?_, ?_, ?_⟩
  · simp [procStore, processEvent, saveCustomer, getCustomer, h₁,
      jsGet_jsSet_self]
  · simp [procStore, processEvent, saveCustomer, getCustomer, h₁,
      jsGet_jsSet_self]
  · simp [createSubscriptionCustomerCreate, h₂, h₃.1, h₃.2.1, h₃.2.2]

/-- Witness for C9 on the empty store. -/
theorem new_customer_record_creation_witness :
    getCustomer
        (procStore "t0" cexEnv
          (StripeEvent.customerCreated { id := "cus_1" }) []) "cus_1"
      = some { stripeCustomerId := some "cus_1", updatedAt := "t0" } ∧
    createSubscriptionCustomerCreate []
        { priceId := "price_1", planType := "monthly", email := "a@b.c" }
      = some { email := "a@b.c"
               name := "a"
               plan := "monthly"
               product := "Unknown" } := by
  have h := new_customer_record_creation "t0" cexEnv []
    { id := "cus_1" }
    { priceId := "price_1", planType := "monthly", email := "a@b.c" }
    (by decide) (by decide) (by refine ⟨?_, ?_, ?_⟩ <;> decide)
  exact ⟨h.1, by rw [h.2.2]; rfl⟩

/-! ## Claim C5: invoice.payment_failed suspends locally -/

/-- C5, amended.  Processing an invoice.payment_failed event for a
subscription invoice with a known, stored customer that is not an
initial payment attempt (billing_reason subscription_create with
attempt_count 0, which the handler deliberately skips) leaves the
customer suspended with suspension reason payment_failed, and the
handler issues no provider mutation at all, in particular none against
the provider subscription record.  (The claim without the
initial-attempt exception is refuted by c5Counterexample.) -/
theorem payment_failed_suspends_locally (now : String) (env : Env)
    (s : Store) (inv : Invoice) (cu : String)
    (hcu : inv.customer = some cu)
    (hsub : (isTruthyStr inv.subscription
        || inv.billingReason == some "subscription_create"
        || inv.billingReason == some "subscription_cycle"
        || inv.billingReason == some "subscription_update") = true)
    (hcune : (cu != "") = true)
    (hnotinit : (inv.billingReason == some "subscription_create"
        && inv.attemptCount == 0) = false)
    (hknown : (getCustomer s cu).isSome = true) :
    ((getCustomer
        (procStore now env (StripeEvent.invoicePaymentFailed inv) s) cu).map
      (fun c => (c.suspended, c.suspensionInfo.bind SuspensionInfo.reason)))
      = some (true, some "payment_failed") ∧
    (processEvent now env (StripeEvent.invoicePaymentFailed inv) s).2 = [] := by
  simp only [getCustomer] at hknown
  constructor
  · simp only [procStore, processEvent, hcu, hsub, hcune, hnotinit,
      Bool.true_and, Bool.and_true, Bool.not_false, if_true]
    cases hg : jsGet s cu with
    | none => rw [hg] at hknown; cases hknown
    | some c =>
        by_cases hs : c.suspended
        · simp [suspendCustomerEntitlements, getCustomer, hg, hs,
            jsGet_jsSet_self, mergeInfo, failedPaymentInfo]
        · by_cases hemp : c.entitlements.isEmpty <;>
            simp [suspendCustomerEntitlements, getCustomer, hg, hs, hemp,
              jsGet_jsSet_self, failedPaymentInfo]
  · simp [processEvent, hcu, hsub, hcune, hnotinit]

/-- The invoice of the C5 counterexample: a subscription invoice whose
payment failed on the initial attempt. -/
def c5CexInv : Invoice where
  id := "in_1"
  customer := some "cus_8"
  subscription := some "sub_1"
  billingReason := some "subscription_create"
  amountDue := 100
  attemptCount := 0

/-- A store holding the customer of the C5 counterexample. -/
def c5CexStore : Store :=
  saveCustomer "t1" [] "cus_8" { stripeCustomerId := some "cus_8" }

/-- C5 counterexample: an invoice.payment_failed event for a subscription
invoice with a known customer whose processing leaves the suspended flag
false, refuting C5 as stated (the handler skips initial payment
attempts). -/
theorem c5_counterexample :
    isTruthyStr c5CexInv.subscription = true ∧
    c5CexInv.customer = some "cus_8" ∧
    (getCustomer c5CexStore "cus_8").isSome = true ∧
    (getCustomer
        (procStore "t2" cexEnv (StripeEvent.invoicePaymentFailed c5CexInv)
          c5CexStore) "cus_8").map Customer.suspended
      = some false := by
  refine ⟨by decide, by decide, by decide, by decide⟩

/-- The invoice of the C5 witness: a recurring-cycle payment failure. -/
def c5WitInv : Invoice where
  id := "in_2"
  customer := some "cus_8"
  subscription := some "sub_1"
  billingReason := some "subscription_cycle"
  amountDue := 100
  attemptCount := 2

/-- Witness for the amended C5 at a concrete store and event. -/
theorem c5_witness :
    ((getCustomer
        (procStore "t2" cexEnv (StripeEvent.invoicePaymentFailed c5WitInv)
          c5CexStore) "cus_8").map
      (fun c => (c.suspended, c.suspensionInfo.bind SuspensionInfo.reason)))
      = some (true, some "payment_failed") ∧
    (processEvent "t2" cexEnv (StripeEvent.invoicePaymentFailed c5WitInv)
        c5CexStore).2 = [] :=
  payment_failed_suspends_locally "t2" cexEnv c5CexStore c5WitInv "cus_8"
    (by decide) (by decide) (by decide) (by decide) (by decide)

/-! ## Claim C7: webhook processing never removes a customer -/

theorem isSome_saveCustomer (now cid : String) (d : CustomerData)
    {s : Store} {k : String} (h : (jsGet s k).isSome = true) :
    (jsGet (saveCustomer now s cid d) k).isSome = true := by
  rw [saveCustomer_eq_jsSet]
  exact isSome_jsGet_jsSet s k cid _ h

theorem isSome_saveSub (now cid : String) (sub : SubData)
    {s : Store} {k : String} (h : (jsGet s k).isSome = true) :
    (jsGet (saveCustomerSubscription now s cid sub) k).isSome = true := by
  unfold saveCustomerSubscription
  cases hg : jsGet s cid with
  | none => exact h
  | some c => exact isSome_jsGet_jsSet s k cid _ h

theorem isSome_saveEnts (now cid : String) (es : EntMap)
    {s : Store} {k : String} (h : (jsGet s k).isSome = true) :
    (jsGet (saveCustomerEntitlements now s cid es) k).isSome = true := by
  unfold saveCustomerEntitlements
  cases hg : jsGet s cid with
  | none => exact h
  | some c => exact isSome_jsGet_jsSet s k cid _ h

theorem isSome_suspend (now cid : String) (info : SuspensionInfo)
    {s : Store} {k : String} (h : (jsGet s k).isSome = true) :
    (jsGet (suspendCustomerEntitlements now s cid info).1 k).isSome = true := by
  unfold suspendCustomerEntitlements
  cases hg : jsGet s cid with
  | none => exact h
  | some c =>
      by_cases hs : c.suspended
      · simp only [hs, if_true]
        exact isSome_jsGet_jsSet s k cid _ h
      · simp only [hs, if_false]
        exact isSome_jsGet_jsSet s k cid _ h

theorem isSome_restore (now cid : String)
    {s : Store} {k : String} (h : (jsGet s k).isSome = true) :
    (jsGet (restoreCustomerEntitlements now s cid).1 k).isSome = true := by
  unfold restoreCustomerEntitlements
  cases hg : jsGet s cid with
  | none => exact h
  | some c =>
      by_cases hs : c.suspended
      · simp only [hs, Bool.not_true, Bool.false_eq_true, if_false]
        exact isSome_jsGet_jsSet s k cid _ h
      · simp only [hs, Bool.not_false, if_true]
        exact h

/-- C7.  Processing any webhook event never removes a customer record:
every customer id present in the store before dispatch is still present
afterwards.  Deletion of customer records happens only in the
administrative wipe script, whose clearLocalData empties the store. -/
theorem webhook_never_removes_customers (now : String) (env : Env)
    (e : StripeEvent) (s : Store) (cid : String)
    (h : (getCustomer s cid).isSome = true) :
    (getCustomer (procStore now env e s) cid).isSome = true := by
  simp only [getCustomer] at h ⊢
  cases e with
  | customerCreated c => exact isSome_saveCustomer now c.id _ h
  | customerUpdated c => exact isSome_saveCustomer now c.id _ h
  | paymentIntentSucceeded _ => exact h
  | paymentIntentFailed _ => exact h
  | invoicePaymentSucceeded inv =>
      simp only [procStore, processEvent]
      cases hps : inv.parentSubscription with
      | none => exact h
      | some sid =>
          cases hc : inv.customer with
          | none => exact h
          | some cu =>
              by_cases hcond : (sid != "" && cu != "") = true
              · simp only [hcond, if_true]
                by_cases hact : ((env.retrieveSub sid).status == "active") = true
                · simp only [hact, if_true]
                  exact isSome_saveSub now cu _ h
                · simp only [hact, if_false]
                  exact h
              · simp only [hcond, if_false]
                exact h
  | invoicePaymentFailed inv =>
      simp only [procStore, processEvent]
      cases hc : inv.customer with
      | none => exact h
      | some cu =>
          by_cases hcond : ((isTruthyStr inv.subscription
              || inv.billingReason == some "subscription_create"
              || inv.billingReason == some "subscription_cycle"
              || inv.billingReason == some "subscription_update")
            && cu != ""
            && !(inv.billingReason == some "subscription_create"
                  && inv.attemptCount == 0)) = true
          · simp only [hcond, if_true]
            exact isSome_suspend now cu _ h
          · simp only [hcond, if_false]
            exact h
  | invoiceUpcoming _ => exact h
  | invoiceCreated _ => exact h
  | subCreated _ => exact h
  | subUpdated sub prevStatus =>
      simp only [procStore, processEvent]
      by_cases hcond : (sub.status == "active"
          && prevStatus == some "past_due") = true
      · simp only [hcond, if_true]
        exact isSome_saveSub now sub.customer _ h
      · simp only [hcond, if_false]
        exact h
  | subDeleted sub => exact isSome_saveSub now sub.customer _ h
  | subPaused sub => exact isSome_saveSub now sub.customer _ h
  | subResumed sub => exact isSome_saveSub now sub.customer _ h
  | entitlementSummaryUpdated summary =>
      exact isSome_saveEnts now _ _ (isSome_saveCustomer now _ _ h)
  | other _ => exact h

/-- Witness for C7: a stored customer survives a customer.created event
for another customer. -/
theorem webhook_never_removes_customers_witness :
    (getCustomer
        (procStore "t2" cexEnv
          (StripeEvent.customerCreated { id := "cus_9" }) c5CexStore)
        "cus_8").isSome = true :=
  webhook_never_removes_customers "t2" cexEnv
    (StripeEvent.customerCreated { id := "cus_9" }) c5CexStore "cus_8"
    (by decide)

/-! ## Claim C4: idempotence of the webhook handlers

The observation of a customer record retains its subscription, suspended
flag and both entitlement maps, stripping only the volatile updatedAt
timestamps and the suspensionInfo bookkeeping (whose lastAttemptAt the
already-suspended branch refreshes on every delivery). -/

/-- An entitlement record without its updatedAt timestamp. -/
structure EntObs where
  stripeEntitlementId : String
  featureId : String
  featureLookupKey : String
  featureName : String
  status : String
  type : String
  value : String
  metadata : List (String × String)
deriving DecidableEq, Repr

/-- Strip the timestamp off an entitlement. -/
def entObs (e : Entitlement) : EntObs where
  stripeEntitlementId := e.stripeEntitlementId
  featureId := e.featureId
  featureLookupKey := e.featureLookupKey
  featureName := e.featureName
  status := e.status
  type := e.type
  value := e.value
  metadata := e.metadata

/-- Strip the timestamps off an entitlement map. -/
def entMapObs (m : EntMap) : List (String × EntObs) :=
  m.map fun p => (p.1, entObs p.2)

/-- The observable part of a customer record for the idempotence claim:
subscription, suspension flag and both entitlement maps. -/
structure CustObs where
  subscription : Option SubData
  suspended : Bool
  entitlements : List (String × EntObs)
  suspendedEntitlements : List (String × EntObs)
deriving DecidableEq, Repr

/-- Observe one customer record. -/
def custObs (c : Customer) : CustObs where
  subscription := c.subscription
  suspended := c.suspended
  entitlements := entMapObs c.entitlements
  suspendedEntitlements := entMapObs c.suspendedEntitlements

/-- Observe the record stored under one customer id. -/
def obsAt (s : Store) (cid : String) : Option CustObs :=
  (jsGet s cid).map custObs

theorem obsAt_jsSet_self (s : Store) (cid : String) (v : Customer) :
    obsAt (jsSet s cid v) cid = some (custObs v) := by
  simp [obsAt, jsGet_jsSet_self]

theorem obsAt_jsSet_ne (s : Store) (cid : String) (v : Customer)
    (k : String) (h : cid ≠ k) : obsAt (jsSet s cid v) k = obsAt s k := by
  simp [obsAt, jsGet_jsSet_ne s cid k v h]

theorem entObs_entFromItem (n n' : String) (env : Env) (it : EntItem) :
    entObs (entFromItem n env it) = entObs (entFromItem n' env it) := rfl

theorem entMapObs_jsSet (m : EntMap) (k : String) (e : Entitlement) :
    entMapObs (jsSet m k e) = jsSet (entMapObs m) k (entObs e) := by
  induction m with
  | nil => rfl
  | cons p t ih =>
      by_cases hp : p.1 = k
      · simp [jsSet, entMapObs, hp]
      · simp only [jsSet, hp, if_false, entMapObs, List.map_cons]
        exact congrArg (List.cons (p.1, entObs p.2)) ih

theorem entMapObs_buildEntMap (env : Env) (items : List EntItem)
    (n n' : String) :
    entMapObs (buildEntMap n env items) = entMapObs (buildEntMap n' env items) := by
  suffices h : ∀ m m' : EntMap, entMapObs m = entMapObs m' →
      entMapObs (items.foldl
        (fun acc it => jsSet acc it.id (entFromItem n env it)) m)
        = entMapObs (items.foldl
        (fun acc it => jsSet acc it.id (entFromItem n' env it)) m') by
    exact h [] [] rfl
  induction items with
  | nil => intro m m' h; simpa using h
  | cons it t ih =>
      intro m m' h
      simp only [List.foldl_cons]
      refine ih _ _ ?_
      rw [entMapObs_jsSet, entMapObs_jsSet, h, entObs_entFromItem n n' env it]

theorem obs_saveCustomer_stable (n₁ n₂ : String) (s : Store) (cid : String)
    (d : CustomerData) :
    custObs (savedCustomerRecord n₂ (saveCustomer n₁ s cid d) cid d)
      = custObs (savedCustomerRecord n₁ s cid d) := by
  unfold savedCustomerRecord custObs
  rw [saveCustomer_eq_jsSet, jsGet_jsSet_self]
  rfl

theorem obs_saveCustomer_idem (n₁ n₂ : String) (s : Store) (cid : String)
    (d : CustomerData) (k : String) :
    obsAt (saveCustomer n₂ (saveCustomer n₁ s cid d) cid d) k
      = obsAt (saveCustomer n₁ s cid d) k := by
  by_cases hk : cid = k
  · subst hk
    rw [saveCustomer_eq_jsSet n₂, obsAt_jsSet_self,
      obs_saveCustomer_stable n₁ n₂ s cid d,
      saveCustomer_eq_jsSet n₁, obsAt_jsSet_self]
  · rw [saveCustomer_eq_jsSet n₂, obsAt_jsSet_ne _ _ _ _ hk]

theorem obs_saveSub_idem (n₁ n₂ : String) (s : Store) (cid : String)
    (sub : SubData) (k : String) :
    obsAt (saveCustomerSubscription n₂
        (saveCustomerSubscription n₁ s cid sub) cid sub) k
      = obsAt (saveCustomerSubscription n₁ s cid sub) k := by
  cases hg : jsGet s cid with
  | none => simp [saveCustomerSubscription, hg]
  | some c =>
      simp only [saveCustomerSubscription, hg, jsGet_jsSet_self]
      by_cases hk : cid = k
      · subst hk
        rw [obsAt_jsSet_self, obsAt_jsSet_self]
        rfl
      · simp only [obsAt_jsSet_ne _ _ _ _ hk]

theorem obs_suspend_idem (n₁ n₂ : String) (s : Store) (cid : String)
    (info₁ info₂ : SuspensionInfo) (k : String) :
    obsAt (suspendCustomerEntitlements n₂
        (suspendCustomerEntitlements n₁ s cid info₁).1 cid info₂).1 k
      = obsAt (suspendCustomerEntitlements n₁ s cid info₁).1 k := by
  cases hg : jsGet s cid with
  | none => simp [suspendCustomerEntitlements, hg]
  | some c =>
      by_cases hs : c.suspended
      · simp only [suspendCustomerEntitlements, hg, hs, if_true,
          jsGet_jsSet_self]
        by_cases hk : cid = k
        · subst hk
          rw [obsAt_jsSet_self, obsAt_jsSet_self]
          rfl
        · simp only [obsAt_jsSet_ne _ _ _ _ hk]
      · by_cases hemp : c.entitlements.isEmpty
        · simp only [suspendCustomerEntitlements, hg, hs, Bool.false_eq_true,
            if_false, hemp, if_true, jsGet_jsSet_self]
          by_cases hk : cid = k
          · subst hk
            rw [obsAt_jsSet_self, obsAt_jsSet_self]
            rfl
          · simp only [obsAt_jsSet_ne _ _ _ _ hk]
        · simp only [suspendCustomerEntitlements, hg, hs, Bool.false_eq_true,
            if_false, hemp, if_true, jsGet_jsSet_self]
          by_cases hk : cid = k
          · subst hk
            rw [obsAt_jsSet_self, obsAt_jsSet_self]
            rfl
          · simp only [obsAt_jsSet_ne _ _ _ _ hk]

theorem obs_summary_idem (n₁ n₂ : String) (env : Env) (summary : EntSummary)
    (s : Store) (k : String) :
    obsAt (handleEntitlementSummaryUpdated n₂ env summary
        (handleEntitlementSummaryUpdated n₁ env summary s)) k
      = obsAt (handleEntitlementSummaryUpdated n₁ env summary s) k := by
  simp only [handleEntitlementSummaryUpdated]
  rw [saveCustomer_eq_jsSet n₁ s]
  simp only [saveCustomerEntitlements, jsGet_jsSet_self]
  rw [saveCustomer_eq_jsSet n₂]
  simp only [jsGet_jsSet_self]
  by_cases hk : (env.retrieveCustomer summary.customer).id = k
  · subst hk
    rw [obsAt_jsSet_self, obsAt_jsSet_self]
    simp only [custObs, savedCustomerRecord, jsGet_jsSet_self]
    rw [entMapObs_buildEntMap env summary.entitlements n₂ n₁]
  · simp only [obsAt_jsSet_ne _ _ _ _ hk]

/-- C4.  Processing any webhook event twice in succession with the same
provider responses leaves every customer record observationally
identical (subscription, suspended flag, entitlements and
suspendedEntitlements, up to the volatile timestamps) to processing it
once: the handlers are idempotent. -/
theorem webhook_handlers_idempotent (n₁ n₂ : String) (env : Env)
    (e : StripeEvent) (s : Store) (k : String) :
    obsAt (procStore n₂ env e (procStore n₁ env e s)) k
      = obsAt (procStore n₁ env e s) k := by
  cases e with
  | customerCreated c => exact obs_saveCustomer_idem n₁ n₂ s c.id _ k
  | customerUpdated c => exact obs_saveCustomer_idem n₁ n₂ s c.id _ k
  | paymentIntentSucceeded _ => rfl
  | paymentIntentFailed _ => rfl
  | invoicePaymentSucceeded inv =>
      simp only [procStore, processEvent]
      cases hps : inv.parentSubscription with
      | none => rfl
      | some sid =>
          cases hc : inv.customer with
          | none => rfl
          | some cu =>
              by_cases hcond : (sid != "" && cu != "") = true
              · simp only [hcond, if_true]
                by_cases hact : ((env.retrieveSub sid).status == "active") = true
                · simp only [hact, if_true]
                  exact obs_saveSub_idem n₁ n₂ s cu _ k
                · simp only [hact, Bool.false_eq_true, if_false]
              · simp only [hcond, Bool.false_eq_true, if_false]
  | invoicePaymentFailed inv =>
      simp only [procStore, processEvent]
      cases hc : inv.customer with
      | none => rfl
      | some cu =>
          by_cases hcond : ((isTruthyStr inv.subscription
              || inv.billingReason == some "subscription_create"
              || inv.billingReason == some "subscription_cycle"
              || inv.billingReason == some "subscription_update")
            && cu != ""
            && !(inv.billingReason == some "subscription_create"
                  && inv.attemptCount == 0)) = true
          · simp only [hcond, if_true]
            exact obs_suspend_idem n₁ n₂ s cu _ _ k
          · simp only [hcond, Bool.false_eq_true, if_false]
  | invoiceUpcoming _ => rfl
  | invoiceCreated _ => rfl
  | subCreated _ => rfl
  | subUpdated sub prevStatus =>
      simp only [procStore, processEvent]
      by_cases hcond : (sub.status == "active"
          && prevStatus == some "past_due") = true
      · simp only [hcond, if_true]
        exact obs_saveSub_idem n₁ n₂ s sub.customer _ k
      · simp only [hcond, Bool.false_eq_true, if_false]
  | subDeleted sub => exact obs_saveSub_idem n₁ n₂ s sub.customer _ k
  | subPaused sub => exact obs_saveSub_idem n₁ n₂ s sub.customer _ k
  | subResumed sub => exact obs_saveSub_idem n₁ n₂ s sub.customer _ k
  | entitlementSummaryUpdated summary => exact obs_summary_idem n₁ n₂ env summary s k
  | other _ => rfl

end StripeDemo
